import Mathlib

/-!
Verification development for the prompt-refinement repository.

The development shallowly embeds the dynamic-filter synthesis pipeline of
src/filters.py (generate_dynamic_filters, display_custom_filters), the
prompt-refinement wrappers of src/prompt_refinement.py and src/app.py, and
the answer wrapper of src/gpt4o_response.py.

Python dynamic values are modelled by the inductive type PyVal; fallible
Python operations (membership tests, subscripting, iteration) return
Except PyErr; json.loads is modelled by an executable JSON parser over
List Char.  Model calls are modelled by environments passed as arguments:
an attempt-indexed oracle for generate_content, and widget-value
environments for the Streamlit UI.
-/

/-- A Python value as produced by json.loads and manipulated by the
repository code.  Non-integral JSON numbers are kept as their lexeme
(IEEE float semantics are not modelled; no verified claim depends on
numeric values). -/
inductive PyVal where
  | none
  | bool (b : Bool)
  | int (n : Int)
  | float (lexeme : String)
  | str (s : String)
  | list (xs : List PyVal)
  | dict (kvs : List (String × PyVal))

/-- Exceptions raised by the modelled Python operations. -/
inductive PyErr where
  | typeError
  | valueError
  | keyError
  | parseError
  | exception (msg : String)

/-- The opening brace character (written with an escape throughout). -/
def braceOpen : Char := '\x7b'

/-- The closing brace character. -/
def braceClose : Char := '\x7d'

/-- JSON whitespace characters accepted between tokens by json.loads. -/
def isJsonWs (c : Char) : Bool :=
  c == ' ' || c == '\t' || c == '\n' || c == '\r'

/-- Skips JSON whitespace. -/
def skipWs (cs : List Char) : List Char := cs.dropWhile isJsonWs

/-- Whitespace stripped by the Python str.strip method (ASCII subset). -/
def isPyWs (c : Char) : Bool :=
  c == ' ' || c == '\t' || c == '\n' || c == '\r' || c == '\x0b' || c == '\x0c'

/-- Character list form of Python str.strip. -/
def pyStripChars (cs : List Char) : List Char :=
  ((cs.dropWhile isPyWs).reverse.dropWhile isPyWs).reverse

/-- Python str.strip on strings. -/
def pyStrip (s : String) : String := String.mk (pyStripChars s.data)

/-- Value of a hexadecimal digit, if any. -/
def hexVal (c : Char) : Option Nat :=
  if '0' ≤ c && c ≤ '9' then Option.some (c.toNat - '0'.toNat)
  else if 'a' ≤ c && c ≤ 'f' then Option.some (c.toNat - 'a'.toNat + 10)
  else if 'A' ≤ c && c ≤ 'F' then Option.some (c.toNat - 'A'.toNat + 10)
  else Option.none

/-- Matches a literal character sequence at the head of the input and
returns the remaining input. -/
def litMatch : List Char → List Char → Option (List Char)
  | [], cs => Option.some cs
  | _ :: _, [] => Option.none
  | l :: ls, c :: cs => if l == c then litMatch ls cs else Option.none

/-- Parses the body of a JSON string literal (the opening quote already
consumed), handling the JSON escape sequences; mirrors the strict mode of
json.loads, which rejects raw control characters. -/
def parseStrBody : List Char → List Char → Option (String × List Char)
  | _, [] => Option.none
  | acc, c :: rest =>
    if c == '"' then Option.some (String.mk acc.reverse, rest)
    else if c == '\\' then
      match rest with
      | [] => Option.none
      | e :: rest2 =>
        if e == '"' then parseStrBody ('"' :: acc) rest2
        else if e == '\\' then parseStrBody ('\\' :: acc) rest2
        else if e == '/' then parseStrBody ('/' :: acc) rest2
        else if e == 'b' then parseStrBody ('\x08' :: acc) rest2
        else if e == 'f' then parseStrBody ('\x0c' :: acc) rest2
        else if e == 'n' then parseStrBody ('\n' :: acc) rest2
        else if e == 'r' then parseStrBody ('\r' :: acc) rest2
        else if e == 't' then parseStrBody ('\t' :: acc) rest2
        else if e == 'u' then
          match rest2 with
          | h1 :: h2 :: h3 :: h4 :: rest3 =>
            match hexVal h1, hexVal h2, hexVal h3, hexVal h4 with
            | Option.some a, Option.some b, Option.some c2, Option.some d =>
              parseStrBody (Char.ofNat (((a * 16 + b) * 16 + c2) * 16 + d) :: acc) rest3
            | _, _, _, _ => Option.none
          | _ => Option.none
        else Option.none
    else if c.toNat < 32 then Option.none
    else parseStrBody (c :: acc) rest

/-- Splits a leading run of decimal digits from the input. -/
def splitDigits (cs : List Char) : List Char × List Char :=
  (cs.takeWhile Char.isDigit, cs.dropWhile Char.isDigit)

/-- Numeric value of a digit list. -/
def digitsVal (ds : List Char) : Nat :=
  ds.foldl (fun n c => n * 10 + (c.toNat - '0'.toNat)) 0

/-- Parses an optional JSON exponent part, returning its lexeme and the
rest; fails softly (the caller then leaves the input untouched, as the
number regular expression of the json module backtracks). -/
def parseExpPart : List Char → Option (List Char × List Char)
  | [] => Option.none
  | e :: rest =>
    if e == 'e' || e == 'E' then
      let signAndRest : List Char × List Char :=
        match rest with
        | '+' :: r => (['+'], r)
        | '-' :: r => (['-'], r)
        | _ => ([], rest)
      let ds := splitDigits signAndRest.2
      if ds.1.isEmpty then Option.none
      else Option.some (e :: signAndRest.1 ++ ds.1, ds.2)
    else Option.none

/-- Parses a JSON number following the maximal-munch-with-backtracking
behaviour of the json module number regular expression.  A pure integer
becomes PyVal.int; a number with a fraction or exponent keeps its lexeme
as PyVal.float. -/
def parseNumber (cs : List Char) : Option (PyVal × List Char) :=
  let signAndRest : List Char × List Char :=
    match cs with
    | '-' :: rest => (['-'], rest)
    | _ => ([], cs)
  let cs1 := signAndRest.2
  let ids : List Char :=
    match cs1 with
    | '0' :: _ => ['0']
    | _ => cs1.takeWhile Char.isDigit
  if ids.isEmpty then Option.none
  else
    let cs2 := cs1.drop ids.length
    let fracAndRest : List Char × List Char :=
      match cs2 with
      | '.' :: r =>
        let ds := splitDigits r
        if ds.1.isEmpty then ([], cs2) else ('.' :: ds.1, ds.2)
      | _ => ([], cs2)
    let expAndRest : List Char × List Char :=
      match parseExpPart fracAndRest.2 with
      | Option.some (lex, r) => (lex, r)
      | Option.none => ([], fracAndRest.2)
    if fracAndRest.1.isEmpty && expAndRest.1.isEmpty then
      let n : Int := Int.ofNat (digitsVal ids)
      Option.some (PyVal.int (if signAndRest.1.isEmpty then n else -n), cs2)
    else
      Option.some
        (PyVal.float (String.mk (signAndRest.1 ++ ids ++ fracAndRest.1 ++ expAndRest.1)),
         expAndRest.2)

/-- Python dict insertion semantics: updating an existing key keeps its
position, a new key is appended. -/
def kvInsert (kvs : List (String × PyVal)) (k : String) (v : PyVal) :
    List (String × PyVal) :=
  if kvs.any (fun kv => kv.1 == k) then
    kvs.map (fun kv => if kv.1 == k then (k, v) else kv)
  else kvs ++ [(k, v)]

/-- Work item of the recursive-descent JSON parser: a value, the remainder
of an object body, or the remainder of an array body. -/
inductive PTask where
  | val (cs : List Char)
  | objRest (acc : List (String × PyVal)) (cs : List Char)
  | arrRest (acc : List PyVal) (cs : List Char)

/-- One fuel-indexed step of the JSON parser.  The fuel only bounds the
recursion depth; json_loads supplies enough fuel for any input it is given.
Structural recursion on the fuel keeps the function kernel-reducible. -/
def parseStep : Nat → PTask → Option (PyVal × List Char)
  | 0, _ => Option.none
  | Nat.succ fuel, t =>
    match t with
    | PTask.val cs =>
      match cs with
      | [] => Option.none
      | c :: rest =>
        if c == '"' then
          match parseStrBody [] rest with
          | Option.some (s, r) => Option.some (PyVal.str s, r)
          | Option.none => Option.none
        else if c == braceOpen then
          match skipWs rest with
          | c2 :: r2 =>
            if c2 == braceClose then Option.some (PyVal.dict [], r2)
            else parseStep fuel (PTask.objRest [] (c2 :: r2))
          | [] => Option.none
        else if c == '[' then
          match skipWs rest with
          | c2 :: r2 =>
            if c2 == ']' then Option.some (PyVal.list [], r2)
            else parseStep fuel (PTask.arrRest [] (c2 :: r2))
          | [] => Option.none
        else
          match litMatch "true".data cs with
          | Option.some r => Option.some (PyVal.bool true, r)
          | Option.none =>
          match litMatch "false".data cs with
          | Option.some r => Option.some (PyVal.bool false, r)
          | Option.none =>
          match litMatch "null".data cs with
          | Option.some r => Option.some (PyVal.none, r)
          | Option.none =>
          match litMatch "NaN".data cs with
          | Option.some r => Option.some (PyVal.float "NaN", r)
          | Option.none =>
          match litMatch "Infinity".data cs with
          | Option.some r => Option.some (PyVal.float "Infinity", r)
          | Option.none =>
          match litMatch "-Infinity".data cs with
          | Option.some r => Option.some (PyVal.float "-Infinity", r)
          | Option.none => parseNumber cs
    | PTask.objRest acc cs =>
      match cs with
      | [] => Option.none
      | c :: rest =>
        if c == '"' then
          match parseStrBody [] rest with
          | Option.some (k, r1) =>
            match skipWs r1 with
            | ':' :: r2 =>
              match parseStep fuel (PTask.val (skipWs r2)) with
              | Option.some (v, r3) =>
                match skipWs r3 with
                | ',' :: r4 => parseStep fuel (PTask.objRest (kvInsert acc k v) (skipWs r4))
                | c5 :: r4 =>
                  if c5 == braceClose then Option.some (PyVal.dict (kvInsert acc k v), r4)
                  else Option.none
                | [] => Option.none
              | Option.none => Option.none
            | _ => Option.none
          | Option.none => Option.none
        else Option.none
    | PTask.arrRest acc cs =>
      match parseStep fuel (PTask.val cs) with
      | Option.some (v, r1) =>
        match skipWs r1 with
        | ',' :: r2 => parseStep fuel (PTask.arrRest (acc ++ [v]) (skipWs r2))
        | ']' :: r2 => Option.some (PyVal.list (acc ++ [v]), r2)
        | _ => Option.none
      | Option.none => Option.none

/-- Model of json.loads: parse one JSON value, then require that only
whitespace remains (otherwise the json module raises from extra data). -/
def json_loads (s : String) : Except PyErr PyVal :=
  match parseStep (s.data.length * 2 + 4) (PTask.val (skipWs s.data)) with
  | Option.some (v, rest) =>
    if (skipWs rest).isEmpty then Except.ok v else Except.error PyErr.parseError
  | Option.none => Except.error PyErr.parseError

/-- Character-level model of the extraction step
re.search(r'\x7b.*\x7d', text, re.DOTALL): the leftmost match of that
greedy pattern runs from the first opening brace to the last closing brace
of the text, provided that closing brace comes after the opening one;
when there is no match the text is left unchanged. -/
def extractChars (cs : List Char) : List Char :=
  let rest := cs.dropWhile (fun c => c != braceOpen)
  let rest2 := (rest.reverse.dropWhile (fun c => c != braceClose)).reverse
  if rest2.isEmpty then cs else rest2

/-- String form of the extraction step of generate_dynamic_filters. -/
def extractJson (s : String) : String := String.mk (extractChars s.data)

/-- Python membership test (the in operator) for a string left operand:
substring test on strings, element equality on lists, key membership on
dicts, TypeError otherwise. -/
def pyContains (container : PyVal) (s : String) : Except PyErr Bool :=
  match container with
  | PyVal.str t => Except.ok (decide (List.IsInfix s.data t.data))
  | PyVal.list xs =>
    Except.ok (xs.any (fun e => match e with | PyVal.str u => u == s | _ => false))
  | PyVal.dict kvs => Except.ok (kvs.any (fun kv => kv.1 == s))
  | _ => Except.error PyErr.typeError

/-- Python subscripting with a string index: dict lookup (KeyError when
absent), TypeError on every other container. -/
def pyGetItem (container : PyVal) (s : String) : Except PyErr PyVal :=
  match container with
  | PyVal.dict kvs =>
    match kvs.find? (fun kv => kv.1 == s) with
    | Option.some kv => Except.ok kv.2
    | Option.none => Except.error PyErr.keyError
  | _ => Except.error PyErr.typeError

/-- Python iteration: lists yield elements, strings yield one-character
strings, dicts yield their keys, everything else raises TypeError. -/
def pyIter : PyVal → Except PyErr (List PyVal)
  | PyVal.list xs => Except.ok xs
  | PyVal.str t => Except.ok (t.data.map (fun c => PyVal.str (String.mk [c])))
  | PyVal.dict kvs => Except.ok (kvs.map (fun kv => PyVal.str kv.1))
  | _ => Except.error PyErr.typeError

/-- The per-element check of generate_dynamic_filters:
if "type" not in filt or "label" not in filt or "key" not in filt,
raise ValueError, with Python left-to-right short-circuit evaluation. -/
def checkFilt (filt : PyVal) : Except PyErr Unit :=
  match pyContains filt "type" with
  | Except.error e => Except.error e
  | Except.ok t =>
    if !t then Except.error PyErr.valueError
    else match pyContains filt "label" with
    | Except.error e => Except.error e
    | Except.ok l =>
      if !l then Except.error PyErr.valueError
      else match pyContains filt "key" with
      | Except.error e => Except.error e
      | Except.ok k =>
        if !k then Except.error PyErr.valueError else Except.ok ()

/-- Runs checkFilt over every element in order, stopping at the first
raised exception, as the for-loop in the source does. -/
def checkAll : List PyVal → Except PyErr Unit
  | [] => Except.ok ()
  | f :: fs =>
    match checkFilt f with
    | Except.error e => Except.error e
    | Except.ok _ => checkAll fs

/-- The validation block of generate_dynamic_filters after json.loads:
require the "custom_filters" key, subscript it, iterate it, and check each
element. -/
def validateParsed (parsed : PyVal) : Except PyErr Unit :=
  match pyContains parsed "custom_filters" with
  | Except.error e => Except.error e
  | Except.ok mem =>
    if !mem then Except.error PyErr.valueError
    else match pyGetItem parsed "custom_filters" with
    | Except.error e => Except.error e
    | Except.ok cf =>
      match pyIter cf with
      | Except.error e => Except.error e
      | Except.ok items => checkAll items

/-- One attempt body of generate_dynamic_filters.  The argument is the
outcome of model.generate_content followed by response.text for this
attempt: Option.none when that call raises, otherwise the raw text.  The
result is Option.some of the parsed output exactly when the attempt
strips, extracts, parses and validates successfully; every failure mode
is absorbed by the except-branch of the source and yields Option.none. -/
def runAttempt (out : Option String) : Option PyVal :=
  match out with
  | Option.none => Option.none
  | Option.some raw =>
    match json_loads (extractJson (pyStrip raw)) with
    | Except.error _ => Option.none
    | Except.ok parsed =>
      match validateParsed parsed with
      | Except.error _ => Option.none
      | Except.ok _ => Option.some parsed

/-- The fallback_filters constant of generate_dynamic_filters, verbatim. -/
def fallback_filters : PyVal :=
  PyVal.dict [("custom_filters", PyVal.list [
    PyVal.dict [
      ("type", PyVal.str "radio"),
      ("label", PyVal.str "What level of detail do you require?"),
      ("key", PyVal.str "fallback_detail_level"),
      ("options", PyVal.list [PyVal.str "Basic", PyVal.str "Intermediate", PyVal.str "Advanced"])],
    PyVal.dict [
      ("type", PyVal.str "checkbox"),
      ("label", PyVal.str "Which areas are you most interested in?"),
      ("key", PyVal.str "fallback_interest_areas"),
      ("options", PyVal.list [PyVal.str "Design", PyVal.str "Functionality", PyVal.str "Performance", PyVal.str "Usability"])],
    PyVal.dict [
      ("type", PyVal.str "text_input"),
      ("label", PyVal.str "Describe your requirements:"),
      ("key", PyVal.str "fallback_free_text")]])]

/-- The value returned when load_gemini_pro yields None. -/
def emptyFilterSet : PyVal := PyVal.dict [("custom_filters", PyVal.list [])]

/-- The system_instruction literal of generate_dynamic_filters. -/
def system_instruction : String :=
  "\nIMPORTANT: Output must be strictly valid JSON with no extra text, markdown, or explanations.\n\nTask:\nYou are an expert in extracting user requirements for optimal prompt design. Analyze the following input prompt and generate a set of highly relevant custom filters that will capture maximum insight into what the user wants. The requirements are as follows:\n\n- Avoid repeating existing defaults (tone, style, level of detail).\n- Include exactly one free-form text input filter labeled \"Describe your requirements:\".\n- Additional filters (radio, checkbox, selectbox) must be domain-specific, advanced, or uniquely relevant to the user’s prompt.\n- Each filter must have a unique \x27key\x27 and be user-friendly.\n- Provide only truly useful filters based on the prompt.\n\nReturn a JSON object in the following structure:\n\x7b\n  \"custom_filters\": [\n    \x7b\n      \"type\": \"text_input\",\n      \"label\": \"Describe your requirements:\",\n      \"key\": \"custom_free_text\"\n    \x7d,\n    // Additional relevant filters as needed\n  ]\n\x7d\n"

/-- Result of one invocation of generate_dynamic_filters: the returned
value and the number of generate_content calls issued. -/
structure GdfResult where
  result : PyVal
  calls : Nat

/-- The bounded retry loop of generate_dynamic_filters.  The first
argument of the recursion is the number of attempts still available, the
second the number of attempts already issued; each iteration issues
exactly one generation call (counted even when the call itself raises),
returns the parsed output on the first successful validation, and falls
back to fallback_filters when the attempts are exhausted. -/
def gdfLoop (outs : Nat → Option String) : Nat → Nat → GdfResult
  | 0, i => { result := fallback_filters, calls := i }
  | Nat.succ k, i =>
    match runAttempt (outs i) with
    | Option.some v => { result := v, calls := i + 1 }
    | Option.none => gdfLoop outs k (i + 1)

/-- Shallow embedding of generate_dynamic_filters (src/filters.py).
naive_prompt is the user prompt; modelLoaded is false exactly when
load_gemini_pro returns None; outs gives, per attempt index, the outcome
of generate_content on the full prompt (Option.none models a raised
exception).  attempts = 3 in the source. -/
def generate_dynamic_filters (naive_prompt : String) (modelLoaded : Bool)
    (outs : Nat → String → Option String) : GdfResult :=
  let full_prompt := system_instruction ++ "\n\nInput Prompt:\n" ++ naive_prompt
  if modelLoaded then gdfLoop (fun i => outs i full_prompt) 3 0
  else { result := emptyFilterSet, calls := 0 }

/-- Lookup in an association list with string keys (Python dict lookup,
first occurrence; parser-produced dicts have unique keys). -/
def pyLookup (kvs : List (String × PyVal)) (k : String) : Option PyVal :=
  (kvs.find? (fun kv => kv.1 == k)).map (fun kv => kv.2)

/-- The value under "custom_filters" of a returned FilterSet, if the
returned value is a dict carrying that key. -/
def customFiltersOf (v : PyVal) : Option PyVal :=
  match v with
  | PyVal.dict kvs => pyLookup kvs "custom_filters"
  | _ => Option.none

/-- The returned value is a dict that carries the "custom_filters" key. -/
def hasCustomFiltersB (v : PyVal) : Bool :=
  match v with
  | PyVal.dict kvs => kvs.any (fun kv => kv.1 == "custom_filters")
  | _ => false

/-- A filter definition element carries the three required keys, when it
is a dict; non-dict elements are not constrained by this check. -/
def filtHasReqKeys (f : PyVal) : Bool :=
  match f with
  | PyVal.dict kvs =>
    (kvs.any (fun kv => kv.1 == "type")) &&
    (kvs.any (fun kv => kv.1 == "label")) &&
    (kvs.any (fun kv => kv.1 == "key"))
  | _ => true

/-- Presence guarantee actually enforced by the validation block: the
value is a dict with the "custom_filters" key, and when that key holds a
list, every dict element of the list carries "type", "label" and "key". -/
def goodPresence (v : PyVal) : Bool :=
  match v with
  | PyVal.dict kvs =>
    (kvs.any (fun kv => kv.1 == "custom_filters")) &&
    (match pyLookup kvs "custom_filters" with
     | Option.some (PyVal.list xs) => xs.all filtHasReqKeys
     | _ => true)
  | _ => false

/-- The value is a non-empty string. -/
def nonEmptyStrB (v : PyVal) : Bool :=
  match v with
  | PyVal.str s => !s.isEmpty
  | _ => false

/-- Association-list get with a default, modelling dict.get. -/
def pyGetD (kvs : List (String × PyVal)) (k : String) (d : PyVal) : PyVal :=
  match kvs.find? (fun kv => kv.1 == k) with
  | Option.some kv => kv.2
  | Option.none => d

/-- A dict filter definition lacks a non-empty string in one of the three
required fields (the condition the spec claims is rejected); non-dict
elements lack them trivially. -/
def lacksNonEmptyReq (f : PyVal) : Bool :=
  match f with
  | PyVal.dict kvs =>
    !(nonEmptyStrB (pyGetD kvs "type" PyVal.none) &&
      nonEmptyStrB (pyGetD kvs "label" PyVal.none) &&
      nonEmptyStrB (pyGetD kvs "key" PyVal.none))
  | _ => true

/-- The FilterSet has, in its custom_filters list, an element lacking a
non-empty required field. -/
def hasLackingElem (v : PyVal) : Bool :=
  match customFiltersOf v with
  | Option.some (PyVal.list xs) => xs.any lacksNonEmptyReq
  | _ => false

/-- The custom_filters list is non-empty. -/
def isNonEmptyFS (v : PyVal) : Bool :=
  match customFiltersOf v with
  | Option.some (PyVal.list xs) => !xs.isEmpty
  | _ => false

/-- The FilterSet contains a free-text definition in the sense of the
fallback guarantee: type "text_input" with non-empty string key and
label. -/
def hasGoodFreeText (v : PyVal) : Bool :=
  match customFiltersOf v with
  | Option.some (PyVal.list xs) =>
    xs.any (fun f =>
      match f with
      | PyVal.dict kvs =>
        (match pyGetD kvs "type" PyVal.none with
         | PyVal.str t => t == "text_input"
         | _ => false) &&
        nonEmptyStrB (pyGetD kvs "key" PyVal.none) &&
        nonEmptyStrB (pyGetD kvs "label" PyVal.none)
      | _ => false)
  | _ => false

/-- The FilterSet contains any element whose type is "text_input". -/
def hasAnyFreeText (v : PyVal) : Bool :=
  match customFiltersOf v with
  | Option.some (PyVal.list xs) =>
    xs.any (fun f =>
      match f with
      | PyVal.dict kvs =>
        match pyGetD kvs "type" PyVal.none with
        | PyVal.str t => t == "text_input"
        | _ => false
      | _ => false)
  | _ => false

/-- The string-valued "key" fields of the custom_filters elements, in
order. -/
def keyStringsOf (v : PyVal) : List String :=
  match customFiltersOf v with
  | Option.some (PyVal.list xs) =>
    xs.filterMap (fun f =>
      match f with
      | PyVal.dict kvs =>
        match pyGetD kvs "key" PyVal.none with
        | PyVal.str s => Option.some s
        | _ => Option.none
      | _ => Option.none)
  | _ => []

/-- A string list contains a repeated element. -/
def hasDupB : List String → Bool
  | [] => false
  | x :: xs => xs.contains x || hasDupB xs

/-- Fuel-indexed rendering of a Python value to text, approximating the
str() conversion used inside f-strings (container rendering is
approximate: element quoting is omitted; no verified claim depends on the
rendering of containers).  The wrapper strOfPy always supplies enough
fuel. -/
def pyToStrFuel : Nat → PyVal → String
  | _, PyVal.none => "None"
  | _, PyVal.bool true => "True"
  | _, PyVal.bool false => "False"
  | _, PyVal.int n => toString n
  | _, PyVal.float lex => lex
  | _, PyVal.str s => s
  | 0, PyVal.list _ => "[]"
  | 0, PyVal.dict _ => ""
  | Nat.succ fuel, PyVal.list xs =>
    "[" ++ String.intercalate ", " (xs.map (pyToStrFuel fuel)) ++ "]"
  | Nat.succ fuel, PyVal.dict kvs =>
    String.mk [braceOpen] ++
      String.intercalate ", " (kvs.map (fun kv => kv.1 ++ ": " ++ pyToStrFuel fuel kv.2)) ++
      String.mk [braceClose]

/-- Python str() conversion of a value (see pyToStrFuel; the fixed fuel
covers any practically occurring nesting depth). -/
def strOfPy (v : PyVal) : String := pyToStrFuel 1000000 v

/-- Equality of a Python value with a string literal, as the == operator
evaluates it: only a str compares equal to a str. -/
def isStrEq (v : PyVal) (s : String) : Bool :=
  match v with
  | PyVal.str t => t == s
  | _ => false

/-- Python truthiness.  The float case approximates the value-zero test on
the stored lexeme. -/
def pyTruthy : PyVal → Bool
  | PyVal.none => false
  | PyVal.bool b => b
  | PyVal.int n => n != 0
  | PyVal.float lex =>
    let mant := lex.data.takeWhile (fun c => c != 'e' && c != 'E')
    if mant.any Char.isDigit then mant.any (fun c => c.isDigit && c != '0') else true
  | PyVal.str s => !s.isEmpty
  | PyVal.list xs => !xs.isEmpty
  | PyVal.dict kvs => !kvs.isEmpty

/-- Python slicing [:100] on a string. -/
def take100 (s : String) : String := String.mk (s.data.take 100)

/-- A filter definition as passed to the display functions: a Python dict. -/
abbrev Filt : Type := List (String × PyVal)

/-- Equality of hashable Python values as used for dict keys (covers the
hashable constructors; True == 1 cross-equality included; float lexemes
compare textually, an approximation never exercised by the claims). -/
def pyKeyEq (a b : PyVal) : Bool :=
  match a, b with
  | PyVal.none, PyVal.none => true
  | PyVal.bool x, PyVal.bool y => x == y
  | PyVal.bool x, PyVal.int m => (if x then (1 : Int) else 0) == m
  | PyVal.int n, PyVal.bool y => n == (if y then (1 : Int) else 0)
  | PyVal.int n, PyVal.int m => n == m
  | PyVal.float x, PyVal.float y => x == y
  | PyVal.str x, PyVal.str y => x == y
  | _, _ => false

/-- Whether a Python value may be used as a dict key. -/
def isHashable : PyVal → Bool
  | PyVal.list _ => false
  | PyVal.dict _ => false
  | _ => true

/-- The user_custom_choices dict being built by the display functions:
keys are Python values (widget keys or labels). -/
abbrev Answers : Type := List (PyVal × PyVal)

/-- Assignment user_custom_choices[k] = v, with Python dict update
semantics (an existing equal key keeps its position and identity) and a
TypeError on unhashable keys. -/
def setAns (ans : Answers) (k v : PyVal) : Except PyErr Answers :=
  if isHashable k then
    Except.ok
      (if ans.any (fun kv => pyKeyEq kv.1 k) then
        ans.map (fun kv => if pyKeyEq kv.1 k then (kv.1, v) else kv)
      else ans ++ [(k, v)])
  else Except.error PyErr.typeError

/-- Lookup of an answer by key. -/
def ansGet (ans : Answers) (k : PyVal) : Option PyVal :=
  (ans.find? (fun kv => pyKeyEq kv.1 k)).map (fun kv => kv.2)

/-- The option normalisation shared by the checkbox, radio and selectbox
branches: a dict option with "label" and "value" shows the (truncated)
stringified label and stores the value; any other option shows its
(truncated) stringification and stores that same string. -/
def optLabelValue (opt : PyVal) : String × PyVal :=
  match opt with
  | PyVal.dict kvs =>
    if (kvs.any (fun kv => kv.1 == "label")) && (kvs.any (fun kv => kv.1 == "value")) then
      (take100 (strOfPy (pyGetD kvs "label" PyVal.none)), pyGetD kvs "value" PyVal.none)
    else
      (take100 (strOfPy opt), PyVal.str (take100 (strOfPy opt)))
  | _ => (take100 (strOfPy opt), PyVal.str (take100 (strOfPy opt)))

/-- The widget-value environment standing for the Streamlit UI: what each
widget, identified by its key, currently returns.  radio and selectbox
return the selected display label (an arbitrary string, as the code
re-checks membership); choiceIdx selects among offered options where the
source keeps the option object itself. -/
structure UIEnv where
  textInput : PyVal → String
  textArea : PyVal → String
  checkbox : PyVal → Bool
  radio : PyVal → String
  selectbox : PyVal → String
  choiceIdx : PyVal → Nat

/-- The chosen list built by the checkbox-with-options branch. -/
def checkboxChosen (env : UIEnv) (f_key : PyVal) : List PyVal → List PyVal
  | [] => []
  | opt :: rest =>
    let dl := (optLabelValue opt).1
    let sv := (optLabelValue opt).2
    if env.checkbox (PyVal.str (strOfPy f_key ++ "_" ++ dl)) then
      sv :: checkboxChosen env f_key rest
    else checkboxChosen env f_key rest

/-- Processing of one option filter by the loop of display_custom_filters
(src/filters.py): the checkbox, radio, selectbox and text_input branches,
and no else branch — an unrecognised type leaves the answers untouched. -/
def processOptionFilt (env : UIEnv) (ans : Answers) (filt : Filt) :
    Except PyErr Answers :=
  let f_type := pyGetD filt "type" (PyVal.str "radio")
  let f_label := pyGetD filt "label" (PyVal.str "Filter")
  let f_key := pyGetD filt "key" (PyVal.str ("custom_" ++ strOfPy f_label))
  let f_options := pyGetD filt "options" (PyVal.list [])
  if isStrEq f_type "checkbox" then
    if !(pyTruthy f_options) then
      setAns ans f_key (PyVal.bool (env.checkbox f_key))
    else
      match pyIter f_options with
      | Except.error e => Except.error e
      | Except.ok opts => setAns ans f_key (PyVal.list (checkboxChosen env f_key opts))
  else if isStrEq f_type "radio" then
    match pyIter f_options with
    | Except.error e => Except.error e
    | Except.ok opts =>
      let dls := opts.map (fun o => (optLabelValue o).1)
      let svs := opts.map (fun o => (optLabelValue o).2)
      let sel := env.radio f_key
      match setAns ans f_key PyVal.none with
      | Except.error e => Except.error e
      | Except.ok ans1 =>
        if dls.contains sel then
          setAns ans1 f_key (svs.getD (dls.findIdx (fun d => d == sel)) PyVal.none)
        else Except.ok ans1
  else if isStrEq f_type "selectbox" then
    match pyIter f_options with
    | Except.error e => Except.error e
    | Except.ok opts =>
      let dls := opts.map (fun o => (optLabelValue o).1)
      let svs := opts.map (fun o => (optLabelValue o).2)
      let sel := env.selectbox f_key
      match setAns ans f_key PyVal.none with
      | Except.error e => Except.error e
      | Except.ok ans1 =>
        if dls.contains sel then
          setAns ans1 f_key (svs.getD (dls.findIdx (fun d => d == sel)) PyVal.none)
        else Except.ok ans1
  else if isStrEq f_type "text_input" then
    setAns ans f_key (PyVal.str (env.textInput f_key))
  else Except.ok ans

/-- The option-filter loop of display_custom_filters. -/
def displayLoop (env : UIEnv) : Answers → List Filt → Except PyErr Answers
  | ans, [] => Except.ok ans
  | ans, filt :: rest =>
    match processOptionFilt env ans filt with
    | Except.error e => Except.error e
    | Except.ok ans2 => displayLoop env ans2 rest

/-- The first pass of display_custom_filters: the first filter whose type
equals "text_input" becomes the free-text filter, everything else (in
order) goes to the option list. -/
def splitFilters : List Filt → Option Filt → List Filt → Option Filt × List Filt
  | [], ft, opts => (ft, opts)
  | filt :: rest, ft, opts =>
    if isStrEq (pyGetD filt "type" PyVal.none) "text_input" then
      match ft with
      | Option.none => splitFilters rest (Option.some filt) opts
      | Option.some _ => splitFilters rest ft (opts ++ [filt])
    else splitFilters rest ft (opts ++ [filt])

/-- The default free-text filter inserted when no text_input filter was
supplied. -/
def default_free_text : Filt :=
  [("type", PyVal.str "text_input"),
   ("label", PyVal.str "Describe your requirements:"),
   ("key", PyVal.str "default_custom_text")]

/-- Python getitem on a filter dict (KeyError when the key is absent), as
used on the free-text filter. -/
def pyGetItemF (kvs : Filt) (k : String) : Except PyErr PyVal :=
  match List.find? (fun kv => kv.1 == k) kvs with
  | Option.some kv => Except.ok kv.2
  | Option.none => Except.error PyErr.keyError

/-- Shallow embedding of display_custom_filters (src/filters.py): option
filters first, then the free-text filter rendered as a text_area whose
answer is stored under the filter key. -/
def display_custom_filters (env : UIEnv) (custom_filters : List Filt) :
    Except PyErr Answers :=
  let split := splitFilters custom_filters Option.none []
  match displayLoop env [] split.2 with
  | Except.error e => Except.error e
  | Except.ok ans =>
    let ftf := split.1.getD default_free_text
    match pyGetItemF ftf "label" with
    | Except.error e => Except.error e
    | Except.ok _ =>
      match pyGetItemF ftf "key" with
      | Except.error e => Except.error e
      | Except.ok k => setAns ans k (PyVal.str (env.textArea k))

/-- Processing of one filter by display_custom_filters of src/app.py:
answers are stored under the label, and the final else branch renders any
unrecognised type as a plain text input. -/
def appProcessFilt (env : UIEnv) (ans : Answers) (filt : Filt) :
    Except PyErr Answers :=
  let f_type := pyGetD filt "type" (PyVal.str "text_input")
  let f_label := pyGetD filt "label" (PyVal.str "Filter")
  let f_key := pyGetD filt "key" (PyVal.str ("custom_" ++ strOfPy f_label))
  let f_options := pyGetD filt "options" (PyVal.list [])
  if isStrEq f_type "text_input" then
    setAns ans f_label (PyVal.str (env.textInput f_key))
  else if isStrEq f_type "checkbox" then
    setAns ans f_label (PyVal.bool (env.checkbox f_key))
  else if isStrEq f_type "radio" then
    let f_options2 :=
      if !(pyTruthy f_options) then PyVal.list [PyVal.str "Option 1", PyVal.str "Option 2"]
      else f_options
    match pyIter f_options2 with
    | Except.error e => Except.error e
    | Except.ok opts =>
      setAns ans f_label (opts.getD (env.choiceIdx f_key % opts.length) PyVal.none)
  else if isStrEq f_type "selectbox" then
    let f_options2 :=
      if !(pyTruthy f_options) then PyVal.list [PyVal.str "Option 1", PyVal.str "Option 2"]
      else f_options
    match pyIter f_options2 with
    | Except.error e => Except.error e
    | Except.ok opts =>
      setAns ans f_label (opts.getD (env.choiceIdx f_key % opts.length) PyVal.none)
  else
    setAns ans f_label (PyVal.str (env.textInput f_key))

/-- Shallow embedding of display_custom_filters from src/app.py. -/
def app_display_custom_filters (env : UIEnv) (custom_filters : List Filt) :
    Except PyErr Answers :=
  let rec go (ans : Answers) : List Filt → Except PyErr Answers
    | [] => Except.ok ans
    | filt :: rest =>
      match appProcessFilt env ans filt with
      | Except.error e => Except.error e
      | Except.ok ans2 => go ans2 rest
  go [] custom_filters

/-- The refinement instruction literal of
refine_prompt_with_google_genai in src/prompt_refinement.py. -/
def refinement_instruction : String :=
  "\nYou are an expert prompt optimizer. Transform the given naive prompt into a highly detailed, structured, and optimized prompt that will maximize the quality of the final AI response. Follow these rules strictly:\n\n1. Output ONLY the refined prompt without any extra text, explanations, or markdown formatting.\n2. Incorporate all essential details from the naive prompt.\n3. Seamlessly integrate any user preferences provided below (including default and custom filter responses) into the refined prompt.\n4. Ensure the refined prompt is clear, comprehensive, and precise while preserving the original intent.\n\nReturn only the refined prompt.\n"

/-- The user-preferences serialisation of
refine_prompt_with_google_genai in src/prompt_refinement.py: sections with
non-empty preference dicts are rendered as a bracketed header followed by
key: value lines. -/
def buildPrefsText (user_choices : List (String × Answers)) : String :=
  user_choices.foldl
    (fun acc sp =>
      if sp.2.isEmpty then acc
      else
        acc ++ "\n[" ++ sp.1 ++ "]\n" ++
          sp.2.foldl (fun a kv => a ++ strOfPy kv.1 ++ ": " ++ strOfPy kv.2 ++ "\n") "")
    ""

/-- Shallow embedding of refine_prompt_with_google_genai
(src/prompt_refinement.py).  modelLoaded is false exactly when
load_gemini_pro returns None, in which case the function raises; gen
models model.generate_content followed by response.text, whose failure
(Except.error with the exception message) propagates to the caller: this
version has no try-except around the model call. -/
def refine_prompt_with_google_genai (modelLoaded : Bool)
    (gen : String → Except String String) (naive_prompt : String)
    (user_choices : List (String × Answers)) : Except PyErr String :=
  let full_prompt := refinement_instruction ++ "\nNaive Prompt: " ++ naive_prompt ++
    "\nUser Preferences: " ++ buildPrefsText user_choices
  if modelLoaded then
    match gen full_prompt with
    | Except.error msg => Except.error (PyErr.exception msg)
    | Except.ok t => Except.ok (pyStrip t)
  else Except.error (PyErr.exception "Gemini Pro model not loaded successfully.")

/-- The refinement instruction literal of the app.py copy of
refine_prompt_with_google_genai. -/
def app_refinement_instruction : String :=
  "\n        You are an expert prompt optimizer. \n        Transform the given naive prompt into a highly detailed, structured, and clear prompt \n        that maximizes response quality from an AI model. \n        Incorporate the user preferences below as needed \n        (e.g., desired format, length, other relevant constraints or clarifications).\n        "

/-- The user-preferences serialisation of the app.py copy: every section
is rendered (no emptiness guards), with dash-prefixed item lines. -/
def app_buildPrefsText (user_choices : List (String × Answers)) : String :=
  user_choices.foldl
    (fun acc sp =>
      acc ++ "\n[" ++ sp.1 ++ " Filters]\n" ++
        sp.2.foldl (fun a kv => a ++ "- " ++ strOfPy kv.1 ++ ": " ++ strOfPy kv.2 ++ "\n") "")
    "\n\nUser Preferences:\n"

/-- Shallow embedding of the app.py copy of
refine_prompt_with_google_genai: the whole body sits in a try-except whose
handler returns the naive prompt, so no failure propagates. -/
def app_refine_prompt_with_google_genai (modelLoaded : Bool)
    (gen : String → Except String String) (naive_prompt : String)
    (user_choices : List (String × Answers)) : String :=
  let full_prompt := app_refinement_instruction ++ "\n\n" ++ "Naive Prompt: " ++
    naive_prompt ++ "\n" ++ app_buildPrefsText user_choices ++ "\n"
  if modelLoaded then
    match gen full_prompt with
    | Except.error _ => naive_prompt
    | Except.ok t => pyStrip t
  else naive_prompt

/-- Outcome of the chat-completion call (openai.ChatCompletion.create
followed by the response-field extraction): success with the content
text, an InvalidRequestError, or any other exception. -/
inductive ChatOutcome where
  | ok (content : String)
  | invalidRequest (msg : String)
  | otherError (msg : String)

/-- Shallow embedding of generate_response_from_chatgpt
(src/gpt4o_response.py): the messages list is built from the refined
prompt, the call outcome is handled by the two except branches, and the
function always returns a string. -/
def generate_response_from_chatgpt
    (callModel : List (String × String) → ChatOutcome)
    (refined_prompt : String) : String :=
  let messages :=
    [("system", "You are a knowledgeable AI assistant..."),
     ("user", refined_prompt)]
  match callModel messages with
  | ChatOutcome.ok content => pyStrip content
  | ChatOutcome.invalidRequest _ => "⚠️ Invalid model or request parameters."
  | ChatOutcome.otherError msg => "Error in generating response: " ++ msg

/-- Model-output oracle for the C2 counterexample: every attempt returns a
JSON object whose single filter has empty "type", "label" and "key". -/
def outsC2 : Nat → String → Option String := fun _ _ =>
  Option.some "\x7b\"custom_filters\": [\x7b\"type\": \"\", \"label\": \"\", \"key\": \"\"\x7d]\x7d"

/-- The parsed value of the outsC2 output. -/
def vC2 : PyVal :=
  PyVal.dict [("custom_filters", PyVal.list [PyVal.dict [
    ("type", PyVal.str ""), ("label", PyVal.str ""), ("key", PyVal.str "")]])]

/-- Model-output oracle for the C5 witness: the first attempt raises, the
second returns a minimal valid JSON object. -/
def outsC5 : Nat → String → Option String := fun n _ =>
  match n with
  | 0 => Option.none
  | _ => Option.some "\x7b\"custom_filters\": []\x7d"

/-- The parsed value of the successful outsC5 output. -/
def vC5 : PyVal := PyVal.dict [("custom_filters", PyVal.list [])]

/-- Model-output oracle for the C6 counterexample: a validated output in
which two filter definitions share the key "dup". -/
def outsC6 : Nat → String → Option String := fun _ _ =>
  Option.some "\x7b\"custom_filters\": [\x7b\"type\": \"radio\", \"label\": \"A\", \"key\": \"dup\"\x7d, \x7b\"type\": \"radio\", \"label\": \"B\", \"key\": \"dup\"\x7d]\x7d"

/-- The parsed value of the outsC6 output. -/
def vC6 : PyVal :=
  PyVal.dict [("custom_filters", PyVal.list [
    PyVal.dict [("type", PyVal.str "radio"), ("label", PyVal.str "A"), ("key", PyVal.str "dup")],
    PyVal.dict [("type", PyVal.str "radio"), ("label", PyVal.str "B"), ("key", PyVal.str "dup")]])]

/-- Leading commentary (brace-free) for the C7 witness. -/
def preC7 : List Char := "Sure! here is the JSON you asked for: ".data

/-- Interior of the JSON payload for the C7 witness. -/
def midC7 : List Char :=
  "\"custom_filters\": [\x7b\"type\": \"radio\", \"label\": \"Level?\", \"key\": \"lvl\", \"options\": [\"Basic\", \"Advanced\"]\x7d]".data

/-- Trailing commentary (brace-free) for the C7 witness. -/
def postC7 : List Char := " I hope this helps.".data

/-- The parsed value of the C7 witness payload. -/
def vC7 : PyVal :=
  PyVal.dict [("custom_filters", PyVal.list [PyVal.dict [
    ("type", PyVal.str "radio"),
    ("label", PyVal.str "Level?"),
    ("key", PyVal.str "lvl"),
    ("options", PyVal.list [PyVal.str "Basic", PyVal.str "Advanced"])]])]

/-- Model-output oracle for the C7 witness: the payload wrapped in
commentary on both sides. -/
def outsC7 : Nat → String → Option String := fun _ _ =>
  Option.some (String.mk (preC7 ++ (braceOpen :: midC7 ++ [braceClose]) ++ postC7))

/-- A concrete widget environment used by the display theorems. -/
def uiEnvW : UIEnv :=
  { textInput := fun _ => "typed text",
    textArea := fun _ => "area text",
    checkbox := fun _ => false,
    radio := fun _ => "r",
    selectbox := fun _ => "s",
    choiceIdx := fun _ => 0 }

/-- A filter definition with the unrecognised type "slider". -/
def sliderFilt : Filt :=
  [("type", PyVal.str "slider"), ("label", PyVal.str "Pick a value"), ("key", PyVal.str "slider_key")]

theorem dropWhile_append_all {α} (p : α → Bool) (l₁ l₂ : List α)
    (h : ∀ a ∈ l₁, p a = true) :
    (l₁ ++ l₂).dropWhile p = l₂.dropWhile p := by
  induction l₁ with
  | nil => simp
  | cons a as ih =>
    have ha : p a = true := h a (by simp)
    rw [List.cons_append, List.dropWhile_cons, ha]
    exact ih (fun x hx => h x (by simp [hx]))

theorem dropWhile_eq_nil_all {α} (p : α → Bool) (l : List α)
    (h : ∀ a ∈ l, p a = true) : l.dropWhile p = [] := by
  have := dropWhile_append_all p l [] h
  simpa using this

theorem dropWhile_append_stop {α} (p : α → Bool) (l₁ : List α) (c : α) (l₂ : List α)
    (hc : p c = false) :
    (l₁ ++ c :: l₂).dropWhile p = l₁.dropWhile p ++ c :: l₂ := by
  induction l₁ with
  | nil => simp [List.dropWhile_cons, hc]
  | cons a as ih =>
    rw [List.cons_append, List.dropWhile_cons, List.dropWhile_cons]
    cases hpa : p a
    · simp
    · simpa using ih

theorem mem_of_mem_dropWhile {α} (p : α → Bool) (l : List α) (x : α)
    (h : x ∈ l.dropWhile p) : x ∈ l := by
  induction l with
  | nil => simp at h
  | cons a as ih =>
    rw [List.dropWhile_cons] at h
    split at h
    · exact List.mem_cons_of_mem _ (ih h)
    · exact h

theorem gdfLoop_calls_le (outs : Nat → Option String) :
    ∀ (k i : Nat), (gdfLoop outs k i).calls ≤ i + k := by
  intro k
  induction k with
  | zero => intro i; simp [gdfLoop]
  | succ k ih =>
    intro i
    rw [gdfLoop]
    cases h : runAttempt (outs i) with
    | none =>
      simp only [h]
      have := ih (i + 1)
      omega
    | some v =>
      simp only [h]
      show i + 1 ≤ i + (k + 1)
      omega

theorem gdfLoop_all_fail (outs : Nat → Option String) :
    ∀ (k i : Nat), (∀ j, i ≤ j → j < i + k → runAttempt (outs j) = Option.none) →
    gdfLoop outs k i = { result := fallback_filters, calls := i + k } := by
  intro k
  induction k with
  | zero => intro i _; simp [gdfLoop]
  | succ k ih =>
    intro i h
    rw [gdfLoop]
    rw [h i (Nat.le_refl i) (by omega)]
    have := ih (i + 1) (fun j hj1 hj2 => h j (by omega) (by omega))
    rw [this]
    have : i + 1 + k = i + (k + 1) := by omega
    rw [this]

theorem gdfLoop_first_success (outs : Nat → Option String) :
    ∀ (k i j : Nat) (v : PyVal), i ≤ j → j < i + k →
    (∀ m, i ≤ m → m < j → runAttempt (outs m) = Option.none) →
    runAttempt (outs j) = Option.some v →
    gdfLoop outs k i = { result := v, calls := j + 1 } := by
  intro k
  induction k with
  | zero => intro i j v h1 h2; omega
  | succ k ih =>
    intro i j v h1 h2 hfail hsucc
    rw [gdfLoop]
    rcases Nat.eq_or_lt_of_le h1 with heq | hlt
    · subst heq; rw [hsucc]
    · rw [hfail i (Nat.le_refl i) hlt]
      exact ih (i + 1) j v (by omega) (by omega) (fun m hm1 hm2 => hfail m (by omega) hm2) hsucc

theorem runAttempt_some_validate (o : Option String) (v : PyVal)
    (h : runAttempt o = Option.some v) : validateParsed v = Except.ok () := by
  cases o with
  | none => simp [runAttempt] at h
  | some raw =>
    rw [runAttempt] at h
    cases hp : json_loads (extractJson (pyStrip raw)) with
    | error e => simp only [hp] at h; exact Option.noConfusion h
    | ok parsed =>
      simp only [hp] at h
      cases hv : validateParsed parsed with
      | error e => simp only [hv] at h; exact Option.noConfusion h
      | ok u =>
        simp only [hv] at h
        cases h
        cases u
        exact hv

theorem gdfLoop_result_cases (outs : Nat → Option String) :
    ∀ (k i : Nat), (gdfLoop outs k i).result = fallback_filters ∨
      validateParsed ((gdfLoop outs k i).result) = Except.ok () := by
  intro k
  induction k with
  | zero => intro i; left; simp [gdfLoop]
  | succ k ih =>
    intro i
    rw [gdfLoop]
    cases h : runAttempt (outs i) with
    | none => simp only [h]; exact ih (i + 1)
    | some v =>
      right
      simp only [h]
      exact runAttempt_some_validate _ _ h

theorem checkAll_mem (xs : List PyVal) (h : checkAll xs = Except.ok ()) :
    ∀ x ∈ xs, checkFilt x = Except.ok () := by
  induction xs with
  | nil => intro x hx; simp at hx
  | cons f fs ih =>
    rw [checkAll] at h
    cases hf : checkFilt f with
    | error e => simp only [hf] at h; exact Except.noConfusion h
    | ok u =>
      simp only [hf] at h
      intro x hx
      rcases List.mem_cons.mp hx with rfl | hx2
      · cases u; exact hf
      · exact ih h x hx2

theorem checkFilt_dict (kvs : List (String × PyVal))
    (h : checkFilt (PyVal.dict kvs) = Except.ok ()) :
    filtHasReqKeys (PyVal.dict kvs) = true := by
  rw [checkFilt] at h
  simp only [pyContains] at h
  by_cases h1 : kvs.any (fun kv => kv.1 == "type") = true
  · by_cases h2 : kvs.any (fun kv => kv.1 == "label") = true
    · by_cases h3 : kvs.any (fun kv => kv.1 == "key") = true
      · simp [filtHasReqKeys, h1, h2, h3]
      · simp only [Bool.not_eq_true] at h3; simp [h1, h2, h3] at h
    · simp only [Bool.not_eq_true] at h2; simp [h1, h2] at h
  · simp only [Bool.not_eq_true] at h1; simp [h1] at h

theorem validate_hasCF (v : PyVal) (h : validateParsed v = Except.ok ()) :
    hasCustomFiltersB v = true := by
  cases v with
  | dict kvs =>
    rw [validateParsed] at h
    simp only [pyContains] at h
    by_cases h1 : kvs.any (fun kv => kv.1 == "custom_filters") = true
    · simp [hasCustomFiltersB, h1]
    · simp only [Bool.not_eq_true] at h1; simp [h1] at h
  | str t =>
    rw [validateParsed] at h
    simp only [pyContains, pyGetItem] at h
    split at h <;> simp at h
  | list xs =>
    rw [validateParsed] at h
    simp only [pyContains, pyGetItem] at h
    split at h <;> simp at h
  | none => rw [validateParsed] at h; simp only [pyContains] at h; exact Except.noConfusion h
  | bool b => rw [validateParsed] at h; simp only [pyContains] at h; exact Except.noConfusion h
  | int n => rw [validateParsed] at h; simp only [pyContains] at h; exact Except.noConfusion h
  | float lex => rw [validateParsed] at h; simp only [pyContains] at h; exact Except.noConfusion h

theorem validate_goodPresence (v : PyVal) (h : validateParsed v = Except.ok ()) :
    goodPresence v = true := by
  cases v with
  | dict kvs =>
    rw [validateParsed] at h
    simp only [pyContains, pyGetItem] at h
    by_cases h1 : kvs.any (fun kv => kv.1 == "custom_filters") = true
    · have hex : ∃ x ∈ kvs, (x.1 == "custom_filters") = true := List.any_eq_true.mp h1
      have hsome : (kvs.find? (fun kv => kv.1 == "custom_filters")).isSome := by
        rw [List.find?_isSome]
        exact hex
      obtain ⟨kv, hfind⟩ := Option.isSome_iff_exists.mp hsome
      obtain ⟨kname, cf⟩ := kv
      simp only [h1, if_true, Bool.not_true, hfind] at h
      rw [goodPresence]
      simp only [h1, Bool.true_and, pyLookup, hfind, Option.map_some']
      cases cf with
      | list xs =>
        simp only [pyIter] at h
        rw [List.all_eq_true]
        intro x hx
        cases x with
        | dict kvs2 => exact checkFilt_dict kvs2 (checkAll_mem xs h _ hx)
        | none => rfl
        | bool b => rfl
        | int n => rfl
        | float lex => rfl
        | str s => rfl
        | list ys => rfl
      | dict kvs2 => rfl
      | str s => rfl
      | none => rfl
      | bool b => rfl
      | int n => rfl
      | float lex => rfl
    · simp only [Bool.not_eq_true] at h1; simp [h1] at h
  | str t =>
    rw [validateParsed] at h
    simp only [pyContains, pyGetItem] at h
    split at h <;> simp at h
  | list xs =>
    rw [validateParsed] at h
    simp only [pyContains, pyGetItem] at h
    split at h <;> simp at h
  | none => rw [validateParsed] at h; simp only [pyContains] at h; exact Except.noConfusion h
  | bool b => rw [validateParsed] at h; simp only [pyContains] at h; exact Except.noConfusion h
  | int n => rw [validateParsed] at h; simp only [pyContains] at h; exact Except.noConfusion h
  | float lex => rw [validateParsed] at h; simp only [pyContains] at h; exact Except.noConfusion h

theorem gdf_true_eq (np : String) (outs : Nat → String → Option String) :
    generate_dynamic_filters np true outs =
      gdfLoop (fun i => outs i (system_instruction ++ "\n\nInput Prompt:\n" ++ np)) 3 0 := rfl

theorem gdf_false_eq (np : String) (outs : Nat → String → Option String) :
    generate_dynamic_filters np false outs = { result := emptyFilterSet, calls := 0 } := rfl

theorem gdf_result_cases (np : String) (ml : Bool) (outs : Nat → String → Option String) :
    (generate_dynamic_filters np ml outs).result = emptyFilterSet ∨
    (generate_dynamic_filters np ml outs).result = fallback_filters ∨
    validateParsed ((generate_dynamic_filters np ml outs).result) = Except.ok () := by
  cases ml with
  | false => left; rfl
  | true =>
    rw [generate_dynamic_filters]
    simp only [if_true]
    rcases gdfLoop_result_cases _ 3 0 with h | h
    · right; left; exact h
    · right; right; exact h

theorem extractChars_embedded (a mid b : List Char)
    (ha : braceOpen ∉ a) (hb : braceClose ∉ b) :
    extractChars (a ++ (braceOpen :: mid ++ [braceClose]) ++ b) =
      braceOpen :: mid ++ [braceClose] := by
  have hpa : ∀ x ∈ a, (x != braceOpen) = true := by
    intro x hx
    simp only [bne_iff_ne, ne_eq]
    rintro rfl
    exact ha hx
  have hpb : ∀ x ∈ b.reverse, (x != braceClose) = true := by
    intro x hx
    simp only [bne_iff_ne, ne_eq]
    rintro rfl
    exact hb (List.mem_reverse.mp hx)
  have h1 : (a ++ (braceOpen :: mid ++ [braceClose]) ++ b).dropWhile (fun c => c != braceOpen)
      = braceOpen :: (mid ++ [braceClose] ++ b) := by
    have e1 : a ++ (braceOpen :: mid ++ [braceClose]) ++ b
        = a ++ braceOpen :: (mid ++ [braceClose] ++ b) := by simp
    rw [e1, dropWhile_append_all _ _ _ hpa, List.dropWhile_cons]
    simp
  have h2 : ((braceOpen :: (mid ++ [braceClose] ++ b)).reverse).dropWhile (fun c => c != braceClose)
      = braceClose :: (mid.reverse ++ [braceOpen]) := by
    have e2 : (braceOpen :: (mid ++ [braceClose] ++ b)).reverse
        = b.reverse ++ braceClose :: (mid.reverse ++ [braceOpen]) := by simp
    rw [e2, dropWhile_append_stop _ _ _ _ (by simp), dropWhile_eq_nil_all _ _ hpb]
    simp
  simp only [extractChars]
  rw [h1, h2]
  simp

theorem pyStripChars_embedded (a mid b : List Char) :
    pyStripChars (a ++ (braceOpen :: mid ++ [braceClose]) ++ b)
      = a.dropWhile isPyWs ++ (braceOpen :: mid ++ [braceClose]) ++
        (b.reverse.dropWhile isPyWs).reverse := by
  simp only [pyStripChars]
  have h1 : (a ++ (braceOpen :: mid ++ [braceClose]) ++ b).dropWhile isPyWs
      = a.dropWhile isPyWs ++ braceOpen :: (mid ++ [braceClose] ++ b) := by
    have e1 : a ++ (braceOpen :: mid ++ [braceClose]) ++ b
        = a ++ braceOpen :: (mid ++ [braceClose] ++ b) := by simp
    rw [e1, dropWhile_append_stop _ _ _ _ (by rfl)]
  rw [h1]
  have h2 : (a.dropWhile isPyWs ++ braceOpen :: (mid ++ [braceClose] ++ b)).reverse
      = b.reverse ++ braceClose :: (mid.reverse ++ ([braceOpen] ++ (a.dropWhile isPyWs).reverse)) := by
    simp
  rw [h2, dropWhile_append_stop _ _ _ _ (by rfl)]
  simp

theorem runAttempt_embedded (a mid b : List Char) (v : PyVal)
    (ha : braceOpen ∉ a) (hb : braceClose ∉ b)
    (hparse : json_loads (String.mk (braceOpen :: mid ++ [braceClose])) = Except.ok v)
    (hval : validateParsed v = Except.ok ()) :
    runAttempt (Option.some (String.mk (a ++ (braceOpen :: mid ++ [braceClose]) ++ b)))
      = Option.some v := by
  have hstrip : pyStrip (String.mk (a ++ (braceOpen :: mid ++ [braceClose]) ++ b))
      = String.mk (a.dropWhile isPyWs ++ (braceOpen :: mid ++ [braceClose]) ++
          (b.reverse.dropWhile isPyWs).reverse) := by
    simp only [pyStrip]
    rw [pyStripChars_embedded]
  have ha2 : braceOpen ∉ a.dropWhile isPyWs :=
    fun hmem => ha (mem_of_mem_dropWhile _ _ _ hmem)
  have hb2 : braceClose ∉ (b.reverse.dropWhile isPyWs).reverse :=
    fun hmem => hb (List.mem_reverse.mp (mem_of_mem_dropWhile _ _ _ (List.mem_reverse.mp (by simpa using hmem))))
  have hext : extractJson (String.mk (a.dropWhile isPyWs ++ (braceOpen :: mid ++ [braceClose]) ++
      (b.reverse.dropWhile isPyWs).reverse)) = String.mk (braceOpen :: mid ++ [braceClose]) := by
    simp only [extractJson]
    rw [extractChars_embedded _ _ _ ha2 hb2]
  rw [runAttempt, hstrip, hext, hparse]
  simp [hval]

/-- C1: for every prompt string and every sequence of model outputs
(including attempts that raise, fail to parse, or fail validation),
generate_dynamic_filters returns a FilterSet — a dict carrying the
"custom_filters" key — to its caller.  The embedding is a total function,
so no parse or validation exception escapes: every failure mode is
absorbed inside the attempt loop. -/
theorem claim_C1_synthesis_never_raises :
    ∀ (np : String) (ml : Bool) (outs : Nat → String → Option String),
    hasCustomFiltersB ((generate_dynamic_filters np ml outs).result) = true := by
  intro np ml outs
  rcases gdf_result_cases np ml outs with h | h | h
  · rw [h]; rfl
  · rw [h]; rfl
  · exact validate_hasCF _ h

/-- C2 counterexample: a model output whose single filter definition has
all three required fields present but EMPTY is accepted by the validation
and returned as the result, although the claim demands that a candidate
with an element lacking a non-empty type/label/key never be returned. -/
theorem claim_C2_counterexample :
    generate_dynamic_filters "plan a trip" true outsC2 = { result := vC2, calls := 1 } ∧
    hasLackingElem vC2 = true := ⟨rfl, rfl⟩

/-- C2 amended: the validation checks only the PRESENCE of the
"type"/"label"/"key" fields, not their non-emptiness.  For every prompt
and model-output sequence the returned FilterSet satisfies exactly the
presence guarantee: it is a dict with the "custom_filters" key, and when
that key holds a list, every dict element of the list carries the three
required keys (possibly with empty values); a candidate lacking the
"custom_filters" key, or whose list has a dict element missing one of the
three keys, is never returned. -/
theorem claim_C2_presence_validation :
    ∀ (np : String) (ml : Bool) (outs : Nat → String → Option String),
    goodPresence ((generate_dynamic_filters np ml outs).result) = true := by
  intro np ml outs
  rcases gdf_result_cases np ml outs with h | h | h
  · rw [h]; rfl
  · rw [h]; rfl
  · exact validate_goodPresence _ h

/-- C3: if every one of the three attempts fails (raises, fails to parse
or fails validation), generate_dynamic_filters returns the fallback
FilterSet, which is non-empty and contains a text_input definition with
non-empty key and label. -/
theorem claim_C3_fallback_guarantee :
    ∀ (np : String) (outs : Nat → String → Option String),
    (∀ i p, i < 3 → runAttempt (outs i p) = Option.none) →
    (generate_dynamic_filters np true outs).result = fallback_filters ∧
    isNonEmptyFS ((generate_dynamic_filters np true outs).result) = true ∧
    hasGoodFreeText ((generate_dynamic_filters np true outs).result) = true := by
  intro np outs h
  rw [gdf_true_eq, gdfLoop_all_fail _ 3 0 (fun j hj1 hj2 => h j _ (by omega))]
  exact ⟨rfl, rfl, rfl⟩

/-- Witness for C3 at the concrete oracle on which every attempt raises. -/
theorem claim_C3_fallback_guarantee_witness :
    (generate_dynamic_filters "p" true (fun _ _ => Option.none)).result = fallback_filters ∧
    isNonEmptyFS ((generate_dynamic_filters "p" true (fun _ _ => Option.none)).result) = true ∧
    hasGoodFreeText ((generate_dynamic_filters "p" true (fun _ _ => Option.none)).result) = true :=
  claim_C3_fallback_guarantee "p" (fun _ _ => Option.none) (fun _ _ _ => rfl)

/-- C4: one invocation of generate_dynamic_filters issues at most three
(the value of attempts in the source) generation calls, whatever the
prompt, the model-loading state, and the outcomes of the attempts. -/
theorem claim_C4_at_most_three_calls :
    ∀ (np : String) (ml : Bool) (outs : Nat → String → Option String),
    (generate_dynamic_filters np ml outs).calls ≤ 3 := by
  intro np ml outs
  cases ml with
  | false => rw [gdf_false_eq]; exact Nat.zero_le 3
  | true =>
    rw [gdf_true_eq]
    have := gdfLoop_calls_le (fun i => outs i (system_instruction ++ "\n\nInput Prompt:\n" ++ np)) 3 0
    omega

/-- C5: when the attempts before index j all fail and attempt j (j < 3,
zero-based) parses and validates to v, generate_dynamic_filters returns v
immediately with exactly j+1 generation calls — the index, one-based, of
the first valid attempt — so no attempt j+2 is issued. -/
theorem claim_C5_early_success :
    ∀ (np : String) (outs : Nat → String → Option String) (j : Nat) (v : PyVal),
    j < 3 →
    (∀ m p, m < j → runAttempt (outs m p) = Option.none) →
    (∀ p, runAttempt (outs j p) = Option.some v) →
    generate_dynamic_filters np true outs = { result := v, calls := j + 1 } := by
  intro np outs j v hj hfail hsucc
  rw [gdf_true_eq]
  exact gdfLoop_first_success _ 3 0 j v (Nat.zero_le j) (by omega)
    (fun m hm1 hm2 => hfail m _ hm2) (hsucc _)

/-- Witness for C5: the first attempt raises, the second is valid, and
exactly two generation calls are issued. -/
theorem claim_C5_early_success_witness :
    generate_dynamic_filters "plan a trip" true outsC5 = { result := vC5, calls := 2 } :=
  claim_C5_early_success "plan a trip" outsC5 1 vC5 (by omega)
    (fun m p hm => by
      have hm0 : m = 0 := by omega
      subst hm0
      rfl)
    (fun p => rfl)

/-- C6 counterexample: a validated model output whose two filter
definitions share the key "dup" is returned as-is, refuting the claim
that no two FilterDefinitions of a returned FilterSet share a key. -/
theorem claim_C6_counterexample :
    generate_dynamic_filters "plan a trip" true outsC6 = { result := vC6, calls := 1 } ∧
    hasDupB (keyStringsOf vC6) = true := ⟨rfl, rfl⟩

/-- C6 amended: key uniqueness holds only for the FilterSets the code
itself constructs — whenever every attempt fails (so the fallback is
returned) or the model is not loaded (the empty set), the returned
FilterSet has pairwise-distinct keys; a validated model output is
returned without any key-uniqueness check. -/
theorem claim_C6_key_uniqueness_constructed_sets :
    ∀ (np : String) (ml : Bool) (outs : Nat → String → Option String),
    (∀ i p, i < 3 → runAttempt (outs i p) = Option.none) →
    hasDupB (keyStringsOf ((generate_dynamic_filters np ml outs).result)) = false := by
  intro np ml outs h
  cases ml with
  | false => rw [gdf_false_eq]; rfl
  | true =>
    rw [gdf_true_eq, gdfLoop_all_fail _ 3 0 (fun j hj1 hj2 => h j _ (by omega))]
    rfl

/-- Witness for the amended C6 with every attempt raising. -/
theorem claim_C6_key_uniqueness_constructed_sets_witness :
    hasDupB (keyStringsOf ((generate_dynamic_filters "p" true (fun _ _ => Option.none)).result)) = false :=
  claim_C6_key_uniqueness_constructed_sets "p" true (fun _ _ => Option.none) (fun _ _ _ => rfl)

/-- C7: when the first attempt returns a single well-formed JSON payload
(running from its opening to its closing brace) surrounded by arbitrary
brace-free leading and trailing commentary, and the payload parses and
validates, generate_dynamic_filters extracts the embedded substring
(first opening brace to greedy last closing brace) and returns the parsed
payload from that first attempt. -/
theorem claim_C7_extraction_tolerance :
    ∀ (np : String) (outs : Nat → String → Option String)
    (a mid b : List Char) (v : PyVal),
    braceOpen ∉ a → braceClose ∉ b →
    json_loads (String.mk (braceOpen :: mid ++ [braceClose])) = Except.ok v →
    validateParsed v = Except.ok () →
    (∀ p, outs 0 p = Option.some (String.mk (a ++ (braceOpen :: mid ++ [braceClose]) ++ b))) →
    generate_dynamic_filters np true outs = { result := v, calls := 1 } := by
  intro np outs a mid b v ha hb hp hv houts
  rw [gdf_true_eq]
  refine gdfLoop_first_success _ 3 0 0 v (Nat.le_refl 0) (by omega) (fun m hm1 hm2 => by omega) ?_
  rw [houts]
  exact runAttempt_embedded a mid b v ha hb hp hv

/-- Witness for C7 on a concrete commented payload. -/
theorem claim_C7_extraction_tolerance_witness :
    generate_dynamic_filters "p" true outsC7 = { result := vC7, calls := 1 } :=
  claim_C7_extraction_tolerance "p" outsC7 preC7 midC7 postC7 vC7
    (by decide) (by decide) rfl rfl (fun p => rfl)

/-- C8 counterexample: a filter definition with the unrecognised type
"slider" is silently dropped by display_custom_filters of src/filters.py —
the returned answers hold no entry under its key (only the default
free-text entry) — and the app.py variant, while rendering it as a text
input, stores the answer under the LABEL, so there too no entry exists
under the key.  This refutes the claim that an unrecognised kind is
rendered as free text with an answer keyed by its "key". -/
theorem claim_C8_counterexample :
    display_custom_filters uiEnvW [sliderFilt] =
      Except.ok [(PyVal.str "default_custom_text", PyVal.str "area text")] ∧
    ansGet [(PyVal.str "default_custom_text", PyVal.str "area text")] (PyVal.str "slider_key") =
      Option.none ∧
    app_display_custom_filters uiEnvW [sliderFilt] =
      Except.ok [(PyVal.str "Pick a value", PyVal.str "typed text")] ∧
    ansGet [(PyVal.str "Pick a value", PyVal.str "typed text")] (PyVal.str "slider_key") =
      Option.none := ⟨rfl, rfl, rfl, rfl⟩

/-- C8 amended: for a filter definition whose type is outside the
recognised set, display_custom_filters of src/filters.py raises no error
but produces NO answer entry for it (the answers contain only the default
free-text entry, and nothing under the filter key), while the app.py
variant renders it as a plain text input and collects the string answer
under its label (not its key). -/
theorem claim_C8_unrecognized_kind_behaviour :
    ∀ (env : UIEnv) (t lbl k : String),
    t ≠ "text_input" → t ≠ "checkbox" → t ≠ "radio" → t ≠ "selectbox" →
    k ≠ "default_custom_text" →
    (display_custom_filters env [[("type", PyVal.str t), ("label", PyVal.str lbl), ("key", PyVal.str k)]] =
       Except.ok [(PyVal.str "default_custom_text",
         PyVal.str (env.textArea (PyVal.str "default_custom_text")))] ∧
     ansGet [(PyVal.str "default_custom_text",
         PyVal.str (env.textArea (PyVal.str "default_custom_text")))] (PyVal.str k) = Option.none) ∧
    app_display_custom_filters env [[("type", PyVal.str t), ("label", PyVal.str lbl), ("key", PyVal.str k)]] =
      Except.ok [(PyVal.str lbl, PyVal.str (env.textInput (PyVal.str k)))] := by
  intro env t lbl k h1 h2 h3 h4 hk
  have b1 : (t == "text_input") = false := beq_eq_false_iff_ne.mpr h1
  have b2 : (t == "checkbox") = false := beq_eq_false_iff_ne.mpr h2
  have b3 : (t == "radio") = false := beq_eq_false_iff_ne.mpr h3
  have b4 : (t == "selectbox") = false := beq_eq_false_iff_ne.mpr h4
  have b5 : ("default_custom_text" == k) = false := beq_eq_false_iff_ne.mpr (Ne.symm hk)
  refine ⟨⟨?_, ?_⟩, ?_⟩
  · simp +decide [display_custom_filters, splitFilters, displayLoop, processOptionFilt,
      pyGetD, isStrEq, pyGetItemF, setAns, isHashable, default_free_text, b1, b2, b3, b4]
  · simp [ansGet, pyKeyEq, b5]
  · simp +decide [app_display_custom_filters, app_display_custom_filters.go, appProcessFilt,
      pyGetD, isStrEq, setAns, isHashable, b1, b2, b3, b4]

/-- Witness for the amended C8 on the concrete slider filter. -/
theorem claim_C8_unrecognized_kind_behaviour_witness :
    (display_custom_filters uiEnvW [[("type", PyVal.str "slider"), ("label", PyVal.str "Pick a value"), ("key", PyVal.str "slider_key")]] =
       Except.ok [(PyVal.str "default_custom_text",
         PyVal.str (uiEnvW.textArea (PyVal.str "default_custom_text")))] ∧
     ansGet [(PyVal.str "default_custom_text",
         PyVal.str (uiEnvW.textArea (PyVal.str "default_custom_text")))] (PyVal.str "slider_key") = Option.none) ∧
    app_display_custom_filters uiEnvW [[("type", PyVal.str "slider"), ("label", PyVal.str "Pick a value"), ("key", PyVal.str "slider_key")]] =
      Except.ok [(PyVal.str "Pick a value", PyVal.str (uiEnvW.textInput (PyVal.str "slider_key")))] :=
  claim_C8_unrecognized_kind_behaviour uiEnvW "slider" "Pick a value" "slider_key"
    (by decide) (by decide) (by decide) (by decide) (by decide)

/-- C9 counterexample: refine_prompt_with_google_genai of
src/prompt_refinement.py has no try-except around its model call, so when
the call fails, the exception propagates to the caller instead of the
original naive prompt being returned. -/
theorem claim_C9_counterexample :
    refine_prompt_with_google_genai true (fun _ => Except.error "network down") "hello" [] =
      Except.error (PyErr.exception "network down") := rfl

/-- C9 amended: the app.py copy of the refine operation returns the
original naive prompt unchanged on any failure of the model call (or of
model loading) without raising, and the answer operation always returns a
user-visible error string without raising; but the
src/prompt_refinement.py copy of the refine operation propagates both
failures to its caller as an exception. -/
theorem claim_C9_failure_handling :
    ∀ (np : String) (uc : List (String × Answers)) (msg : String)
    (gen : String → Except String String),
    (∀ p, gen p = Except.error msg) →
    refine_prompt_with_google_genai true gen np uc = Except.error (PyErr.exception msg) ∧
    refine_prompt_with_google_genai false gen np uc =
      Except.error (PyErr.exception "Gemini Pro model not loaded successfully.") ∧
    app_refine_prompt_with_google_genai true gen np uc = np ∧
    app_refine_prompt_with_google_genai false gen np uc = np ∧
    (∀ cm : List (String × String) → ChatOutcome,
      (∀ ms, cm ms = ChatOutcome.invalidRequest msg) →
      generate_response_from_chatgpt cm np = "⚠️ Invalid model or request parameters.") ∧
    (∀ cm : List (String × String) → ChatOutcome,
      (∀ ms, cm ms = ChatOutcome.otherError msg) →
      generate_response_from_chatgpt cm np = "Error in generating response: " ++ msg) := by
  intro np uc msg gen hgen
  refine ⟨?_, rfl, ?_, rfl, ?_, ?_⟩
  · rw [refine_prompt_with_google_genai]
    simp only [if_true, hgen]
  · rw [app_refine_prompt_with_google_genai]
    simp only [if_true, hgen]
  · intro cm hcm
    rw [generate_response_from_chatgpt, hcm]
  · intro cm hcm
    rw [generate_response_from_chatgpt, hcm]

/-- Witness for the amended C9 with a concrete failing model call. -/
theorem claim_C9_failure_handling_witness :
    refine_prompt_with_google_genai true (fun _ => Except.error "boom") "hi" [] =
      Except.error (PyErr.exception "boom") ∧
    refine_prompt_with_google_genai false (fun _ => Except.error "boom") "hi" [] =
      Except.error (PyErr.exception "Gemini Pro model not loaded successfully.") ∧
    app_refine_prompt_with_google_genai true (fun _ => Except.error "boom") "hi" [] = "hi" ∧
    app_refine_prompt_with_google_genai false (fun _ => Except.error "boom") "hi" [] = "hi" ∧
    (∀ cm : List (String × String) → ChatOutcome,
      (∀ ms, cm ms = ChatOutcome.invalidRequest "boom") →
      generate_response_from_chatgpt cm "hi" = "⚠️ Invalid model or request parameters.") ∧
    (∀ cm : List (String × String) → ChatOutcome,
      (∀ ms, cm ms = ChatOutcome.otherError "boom") →
      generate_response_from_chatgpt cm "hi" = "Error in generating response: " ++ "boom") :=
  claim_C9_failure_handling "hi" [] "boom" (fun _ => Except.error "boom") (fun _ => rfl)

/-- C10: when the model fails to load, generate_dynamic_filters returns
the FilterSet with an empty "custom_filters" list — which is empty,
contains no text_input definition, and is therefore not the (non-empty)
fixed fallback — and issues no generation call. -/
theorem claim_C10_model_not_loaded_empty_set :
    ∀ (np : String) (outs : Nat → String → Option String),
    generate_dynamic_filters np false outs = { result := emptyFilterSet, calls := 0 } ∧
    hasAnyFreeText ((generate_dynamic_filters np false outs).result) = false ∧
    isNonEmptyFS ((generate_dynamic_filters np false outs).result) = false ∧
    isNonEmptyFS fallback_filters = true := by
  intro np outs
  exact ⟨rfl, rfl, rfl, rfl⟩
